import Mathlib

/-!
Verification of the backup subsystem of `scripts/backup_manager.py` and
`scripts/backup_models.py` (Citadel-Alpha-LLM-Server).

The Python code is shallowly embedded: filesystem trees, clock readings,
random draws and I/O outcomes are explicit parameters; fallible operations
are modelled by explicit outcome flags mirroring the `try`/`except`
structure of the source.  Byte strings are modelled as `String`/`List Char`.
-/

set_option linter.unusedVariables false

/-- Split a char list at `/` separators (used to model `pathlib`). -/
def splitOnSlash : List Char → List (List Char)
  | [] => [[]]
  | c :: rest =>
    if c = '/' then [] :: splitOnSlash rest
    else
      match splitOnSlash rest with
      | [] => [[c]]
      | seg :: segs => (c :: seg) :: segs

/-- Python `pathlib.Path(p).name`: the last nonempty `/`-separated component
of the path (`""` when there is none).  Used by `create_backup` and
`_verify_backup_checksum`. -/
def basename (p : String) : String :=
  String.mk (((splitOnSlash p.data).filter (fun s => s ≠ [])).getLast?.getD [])

/-- A directory tree on disk: regular files as (name, byte content) pairs and
subdirectories as (name, subtree) pairs, in arbitrary on-disk enumeration
order (the order `os.walk` happens to yield them in). -/
inductive DirTree where
  | node (files : List (String × String)) (dirs : List (String × DirTree)) : DirTree

/-- Lexicographic code-point order on char lists: how Python compares the
name strings that `list.sort()` orders. -/
def charListLe : List Char → List Char → Bool
  | [], _ => true
  | _ :: _, [] => false
  | a :: as, b :: bs =>
    if a.toNat < b.toNat then true
    else if b.toNat < a.toNat then false
    else charListLe as bs

theorem charListLe_total : ∀ (a b : List Char),
    charListLe a b = true ∨ charListLe b a = true
  | [], _ => Or.inl rfl
  | _ :: _, [] => Or.inr rfl
  | a :: as, b :: bs => by
    by_cases hab : a.toNat < b.toNat
    · exact Or.inl (by simp [charListLe, hab])
    · by_cases hba : b.toNat < a.toNat
      · exact Or.inr (by simp [charListLe, hba])
      · rcases charListLe_total as bs with h | h
        · exact Or.inl (by simp [charListLe, hab, hba, h])
        · exact Or.inr (by simp [charListLe, hab, hba, h])

theorem charListLe_antisymm : ∀ {a b : List Char},
    charListLe a b = true → charListLe b a = true → a = b
  | [], [], _, _ => rfl
  | [], _ :: _, _, h => by simp [charListLe] at h
  | _ :: _, [], h, _ => by simp [charListLe] at h
  | a :: as, b :: bs, h₁, h₂ => by
    by_cases hab : a.toNat < b.toNat
    · simp [charListLe, hab, Nat.lt_asymm hab] at h₂
    · by_cases hba : b.toNat < a.toNat
      · simp [charListLe, hab, hba] at h₁
      · have hev : a.toNat = b.toNat := Nat.le_antisymm (Nat.le_of_not_lt hba) (Nat.le_of_not_lt hab)
        have hc : a = b := by
          apply Char.ext
          have : a.val.toNat = b.val.toNat := hev
          exact UInt32.toNat.inj this
        subst hc
        simp only [charListLe, hab, if_neg, if_neg hab] at h₁ h₂
        rw [charListLe_antisymm h₁ h₂]

theorem charListLe_trans : ∀ {a b c : List Char},
    charListLe a b = true → charListLe b c = true → charListLe a c = true
  | [], _, _, _, _ => rfl
  | _ :: _, [], _, h, _ => by simp [charListLe] at h
  | _ :: _, _ :: _, [], _, h => by simp [charListLe] at h
  | a :: as, b :: bs, c :: cs, h₁, h₂ => by
    by_cases hab : a.toNat < b.toNat
    · by_cases hbc : b.toNat < c.toNat
      · simp [charListLe, Nat.lt_trans hab hbc]
      · by_cases hcb : c.toNat < b.toNat
        · simp [charListLe, hbc, hcb] at h₂
        · have : b.toNat = c.toNat := Nat.le_antisymm (Nat.le_of_not_lt hcb) (Nat.le_of_not_lt hbc)
          simp [charListLe, this ▸ hab]
    · by_cases hba : b.toNat < a.toNat
      · simp [charListLe, hab, hba] at h₁
      · have heq : a.toNat = b.toNat := Nat.le_antisymm (Nat.le_of_not_lt hba) (Nat.le_of_not_lt hab)
        by_cases hbc : b.toNat < c.toNat
        · simp [charListLe, heq ▸ hbc]
        · by_cases hcb : c.toNat < b.toNat
          · simp [charListLe, hbc, hcb] at h₂
          · simp only [charListLe, hab, hba, if_neg] at h₁
            simp only [charListLe, hbc, hcb, if_neg] at h₂
            have hac : ¬ a.toNat < c.toNat := heq ▸ hbc
            have hca : ¬ c.toNat < a.toNat := heq ▸ hcb
            simp [charListLe, hac, hca, charListLe_trans h₁ h₂]

/-- Python string `<=` by code points, used to sort directory listings. -/
def strLe (a b : String) : Bool := charListLe a.data b.data

/-- Key order used when sorting a directory listing by entry name
(`dirs.sort()` / `files.sort()` in `_calculate_directory_checksum`). -/
def keyLe {α : Type} (a b : String × α) : Prop := strLe a.1 b.1 = true

instance {α : Type} : DecidableRel (@keyLe α) :=
  fun a b => inferInstanceAs (Decidable (strLe a.1 b.1 = true))

instance {α : Type} : IsTotal (String × α) keyLe :=
  ⟨fun a b => charListLe_total a.1.data b.1.data⟩

instance {α : Type} : IsTrans (String × α) keyLe :=
  ⟨fun _ _ _ h₁ h₂ => charListLe_trans h₁ h₂⟩

theorem strLe_antisymm {a b : String} (h₁ : strLe a b = true) (h₂ : strLe b a = true) :
    a = b := by
  apply String.ext
  exact charListLe_antisymm h₁ h₂

/-- Sort a directory listing by entry name (Python `list.sort()` on names;
insertion sort is stable, like Python's sort). -/
def sortPairs {α : Type} (l : List (String × α)) : List (String × α) :=
  List.insertionSort keyLe l

/-- The byte stream fed to the MD5 accumulator by
`_calculate_directory_checksum`, for the subtree reached via relative path
prefix `pre` (a `d1/d2/` style prefix, as a char list).  Per `os.walk`
top-down order with sorted `dirs` and `files`: first every file of the
current directory in name order (content bytes, then the file's relative
path), then each subdirectory in name order, recursively.  The recursion
computes each subtree's stream keyed by its name and sorts the (name,
stream) pairs; by stability of the sort this equals sorting the
subdirectories first and then recursing. -/
def walkStream (pre : List Char) : DirTree → List Char
  | .node files dirs =>
    (((sortPairs files).map (fun fc => fc.2.data ++ (pre ++ fc.1.data))).flatten)
    ++ (((sortPairs (dirs.attach.map
          (fun dd => (dd.1.1, walkStream (pre ++ dd.1.1.data ++ ['/']) dd.1.2)))).map
            Prod.snd).flatten)
termination_by t => sizeOf t
decreasing_by
  have h1 : sizeOf dd.val < sizeOf dirs := List.sizeOf_lt_of_mem dd.property
  have h2 : sizeOf dd.val.2 ≤ sizeOf dd.val := by
    cases dd.val with
    | mk a b => simp
  simp only [DirTree.node.sizeOf_spec]
  omega

/-- `_calculate_directory_checksum`: the digest is determined by the absorbed
byte stream (MD5 is a deterministic function of its input stream, so two
equal streams always give equal hex digests; the digest is modelled by the
stream itself). -/
def dirChecksum (t : DirTree) : String :=
  String.mk (walkStream [] t)

/-- `walkStream` at a node, with the `attach` scaffolding removed. -/
theorem walkStream_node (pre : List Char) (files : List (String × String))
    (dirs : List (String × DirTree)) :
    walkStream pre (.node files dirs) =
      (((sortPairs files).map (fun fc => fc.2.data ++ (pre ++ fc.1.data))).flatten)
      ++ (((sortPairs (dirs.map
            (fun d => (d.1, walkStream (pre ++ d.1.data ++ ['/']) d.2)))).map
              Prod.snd).flatten) := by
  simp only [walkStream]
  rw [List.attach_map_val dirs
    (fun d => (d.1, walkStream (pre ++ d.1.data ++ ['/']) d.2))]

/-- Strict key order on listings; antisymmetric because distinct keys cannot
be below each other both ways. -/
def keyLt {α : Type} (a b : String × α) : Prop := keyLe a b ∧ a.1 ≠ b.1

instance {α : Type} : IsAntisymm (String × α) keyLt :=
  ⟨fun _ _ hab hba => absurd (strLe_antisymm hab.1 hba.1) hab.2⟩

/-- A name-sorted listing with pairwise-distinct names is strictly sorted. -/
theorem pairwise_keyLt {α : Type} :
    ∀ {l : List (String × α)}, l.Pairwise keyLe → (l.map Prod.fst).Nodup →
      l.Pairwise keyLt := by
  intro l
  induction l with
  | nil => intro _ _; exact List.Pairwise.nil
  | cons a l ih =>
    intro hle hnd
    rw [List.pairwise_cons] at hle
    rw [List.map_cons, List.nodup_cons] at hnd
    refine List.Pairwise.cons ?_ (ih hle.2 hnd.2)
    intro b hb
    refine ⟨hle.1 b hb, ?_⟩
    intro he
    exact hnd.1 (he ▸ List.mem_map_of_mem Prod.fst hb)

/-- Sorting a listing by name is invariant under permutation of the listing,
as long as names are pairwise distinct (true of any directory listing). -/
theorem sortPairs_eq_of_perm {α : Type} {l₁ l₂ : List (String × α)}
    (hp : l₁.Perm l₂) (hnd : (l₁.map Prod.fst).Nodup) :
    sortPairs l₁ = sortPairs l₂ := by
  have p₁ : (sortPairs l₁).Perm l₁ := List.perm_insertionSort keyLe l₁
  have p₂ : (sortPairs l₂).Perm l₂ := List.perm_insertionSort keyLe l₂
  have hp' : (sortPairs l₁).Perm (sortPairs l₂) := p₁.trans (hp.trans p₂.symm)
  have hs₁ : (sortPairs l₁).Pairwise keyLe := List.sorted_insertionSort keyLe l₁
  have hs₂ : (sortPairs l₂).Pairwise keyLe := List.sorted_insertionSort keyLe l₂
  have hnd₁ : ((sortPairs l₁).map Prod.fst).Nodup := ((p₁.map Prod.fst).nodup_iff).mpr hnd
  have hnd₂ : ((sortPairs l₂).map Prod.fst).Nodup :=
    ((p₂.map Prod.fst).nodup_iff).mpr (((hp.map Prod.fst).nodup_iff).mp hnd)
  exact List.eq_of_perm_of_sorted hp' (pairwise_keyLt hs₁ hnd₁) (pairwise_keyLt hs₂ hnd₂)

/-- The checksum byte stream does not depend on the order in which the walk
enumerated a directory's files and subdirectories (names distinct). -/
theorem walkStream_listing_perm (pre : List Char)
    {fs₁ fs₂ : List (String × String)} {ds₁ ds₂ : List (String × DirTree)}
    (hf : fs₁.Perm fs₂) (hfnd : (fs₁.map Prod.fst).Nodup)
    (hd : ds₁.Perm ds₂) (hdnd : (ds₁.map Prod.fst).Nodup) :
    walkStream pre (.node fs₁ ds₁) = walkStream pre (.node fs₂ ds₂) := by
  rw [walkStream_node, walkStream_node]
  rw [sortPairs_eq_of_perm hf hfnd]
  rw [sortPairs_eq_of_perm
    (hd.map (fun d => (d.1, walkStream (pre ++ d.1.data ++ ['/']) d.2)))
    (by rw [List.map_map]; exact hdnd)]

/-- One clock reading: `iso` models `datetime.isoformat()`, `stamp` models
`datetime.strftime('%Y%m%d_%H%M%S')`.  Wall-clock values are inputs of the
embedding. -/
structure Datetime where
  iso : String
  stamp : String

/-- The path entries of `StorageSettings.paths` the backup subsystem reads. -/
structure BackupPathSettings where
  backup_root : String
  backup_models : String

/-- The entries of `StorageSettings.backup` the backup subsystem reads.
`verification_sample_rate` is a rational (the Python float, modelled over
ℚ). -/
structure BackupPolicySettings where
  compress_backups : Bool
  verification_sample_rate : ℚ
  max_retry_attempts : Nat
  retry_delay_seconds : Nat
  retention_days : Nat

/-- `configs/storage_settings.py` as consumed by the backup managers. -/
structure StorageSettings where
  paths : BackupPathSettings
  backup : BackupPolicySettings

/-- The `BackupJob` dataclass. -/
structure BackupJob where
  job_id : String
  source_path : String
  destination_path : String
  backup_type : String
  status : String
  start_time : Option Datetime
  end_time : Option Datetime
  files_processed : Nat
  bytes_processed : Nat
  errors : List String
  checksum : Option String

/-- `BackupManager.create_backup`.  `nowId` and `nowDest` are the two
`datetime.now()` readings (job id, then destination timestamp); `rand` is
`random.randint(1000, 9999)`.  The job record is constructed synchronously;
the background execution is modelled separately by `execute_backup`. -/
def create_backup (settings : StorageSettings) (source_path : String)
    (backup_type : String) (nowId nowDest : Datetime) (rand : Nat) : BackupJob :=
  { job_id := "backup_" ++ nowId.stamp ++ "_" ++ toString rand
    source_path := source_path
    destination_path :=
      settings.paths.backup_models ++ "/" ++
        (basename source_path ++ "_" ++ backup_type ++ "_" ++ nowDest.stamp)
    backup_type := backup_type
    status := "pending"
    start_time := none
    end_time := none
    files_processed := 0
    bytes_processed := 0
    errors := []
    checksum := none }

/-- The dict form of a job as persisted by `_save_backup_metadata`
(`asdict(job)` with the two datetimes replaced by their ISO-8601 strings
when present). -/
structure JobRecord where
  job_id : String
  source_path : String
  destination_path : String
  backup_type : String
  status : String
  start_time : Option String
  end_time : Option String
  files_processed : Nat
  bytes_processed : Nat
  errors : List String
  checksum : Option String
deriving DecidableEq

/-- `asdict(job)` followed by the ISO-8601 conversion of `start_time` and
`end_time` (`if job_dict[...]: ... = job.start_time.isoformat()`). -/
def jobDict (j : BackupJob) : JobRecord :=
  { job_id := j.job_id
    source_path := j.source_path
    destination_path := j.destination_path
    backup_type := j.backup_type
    status := j.status
    start_time := j.start_time.map Datetime.iso
    end_time := j.end_time.map Datetime.iso
    files_processed := j.files_processed
    bytes_processed := j.bytes_processed
    errors := j.errors
    checksum := j.checksum }

/-- The parsed content of `backup_metadata.json`. -/
structure MetadataDoc where
  jobs : List JobRecord
  created : String
deriving DecidableEq

/-- The on-disk state of `backup_metadata.json`: absent, present but not
valid JSON, or a parsed document. -/
inductive MetaFile where
  | missing : MetaFile
  | corrupt : MetaFile
  | good (doc : MetadataDoc) : MetaFile
deriving DecidableEq

/-- `_load_backup_metadata`: a missing file and an unparseable file both
yield a fresh default document; it never raises. -/
def load_backup_metadata (file : MetaFile) (now : Datetime) : MetadataDoc :=
  match file with
  | .missing => { jobs := [], created := now.iso }
  | .corrupt => { jobs := [], created := now.iso }
  | .good doc => doc

/-- `_save_backup_metadata`: read the whole document, append the job's dict
form, rewrite the file.  `write_ok = false` models an exception while
opening or writing the file; the `except` clause only logs it, so the
method returns normally either way and the file is left as it was. -/
def save_backup_metadata (j : BackupJob) (file : MetaFile) (now : Datetime)
    (write_ok : Bool) : MetaFile :=
  let metadata := load_backup_metadata file now
  let updated : MetadataDoc := { metadata with jobs := metadata.jobs ++ [jobDict j] }
  if write_ok then .good updated else file

/-- The environment of one `_execute_backup` run: whether the source path
exists, whether the archive step (rsync full/incremental) succeeds, the
message of the exception on failure, the checksum computed for the
destination tree, whether the metadata file write succeeds, and the clock
readings taken along the way. -/
structure ExecEnv where
  source_exists : Bool
  backup_ok : Bool
  failure_msg : String
  checksum : String
  write_ok : Bool
  t_start : Datetime
  t_end : Datetime
  t_meta : Datetime

/-- The first writes of `_execute_backup`: `job.status = "running"` and
`job.start_time = datetime.now()` (nothing that can raise precedes them). -/
def startJob (env : ExecEnv) (j : BackupJob) : BackupJob :=
  { j with status := "running", start_time := some env.t_start }

/-- The remainder of `_execute_backup`'s `try` body plus its `except`
clause: on success the checksum is recorded and the job completes; any
exception (missing source, failed archive step) marks the job failed,
stamps `end_time` and appends the error text. -/
def finishJob (env : ExecEnv) (j : BackupJob) : BackupJob :=
  if env.source_exists && env.backup_ok then
    { j with checksum := some env.checksum, status := "completed",
             end_time := some env.t_end }
  else
    { j with status := "failed", end_time := some env.t_end,
             errors := j.errors ++ [env.failure_msg] }

/-- `_execute_backup` as a state transformer on the job and the metadata
file.  `_save_backup_metadata` is called only on the success path (the
`except` clause does not persist the failed job). -/
def execute_backup (env : ExecEnv) (j : BackupJob) (file : MetaFile) :
    BackupJob × MetaFile :=
  let j2 := finishJob env (startJob env j)
  if env.source_exists && env.backup_ok then
    (j2, save_backup_metadata j2 file env.t_meta env.write_ok)
  else
    (j2, file)

/-- The successive values taken by `job.status`, from the value
`create_backup` stored through the worker's writes, in program order. -/
def jobStatusTrace (env : ExecEnv) (j : BackupJob) : List String :=
  [j.status, (startJob env j).status, (finishJob env (startJob env j)).status]

/-- The `VerificationResult` dataclass (`verification_time` and
`duration_seconds` are wall-clock/float bookkeeping and are not modelled). -/
structure VerificationResult where
  backup_path : String
  is_valid : Bool
  files_checked : Nat
  files_failed : Nat
  checksum_matches : Bool
  errors : List String

/-- Python truthiness of `job_data.get("checksum")`: `None` and `""` are
falsy. -/
def falsyChecksum : Option String → Bool
  | none => true
  | some s => s == ""

/-- `_verify_backup_checksum`: look the backup up in the metadata store by
destination-directory basename; with no matching entry, or a matching entry
without a checksum, return `True` ("can't verify, assume OK"); otherwise
recompute the tree's checksum and compare.  `tree` is the on-disk content
of `backup_path`.  (`_load_backup_metadata` never raises and the model's
checksum computation is total, so the surrounding `except` branch is not
reachable in the embedding.) -/
def checksumOfRecord (tree : DirTree) : Option String → Bool
  | none => true
  | some expected =>
    if expected == "" then true
    else dirChecksum tree == expected

/-- `if not matching_jobs: return True` / `job_data = matching_jobs[0]`. -/
def checksumOfMatching (tree : DirTree) : List JobRecord → Bool
  | [] => true
  | jd :: _ => checksumOfRecord tree jd.checksum

def verify_backup_checksum (file : MetaFile) (now : Datetime) (tree : DirTree)
    (backup_path : String) : Bool :=
  checksumOfMatching tree
    ((load_backup_metadata file now).jobs.filter
      (fun jd => basename jd.destination_path == basename backup_path))

/-- The environment of one `verify_backup` run: whether `backup_path`
exists, whether the `os.walk` enumeration raises (the only fallible step of
the `try` body whose exception escapes to the outer handler), the walked
file list, the per-file integrity-check outcome (exists + readable +
reads without error), the shuffled order `random.sample` draws from, the
on-disk tree under `backup_path`, and the metadata file. -/
structure VerifyEnv where
  dir_exists : Bool
  walk_ok : Bool
  walk_err : String
  all_files : List String
  file_ok : String → Bool
  perm : List String
  tree : DirTree
  meta : MetaFile
  t_meta : Datetime

/-- `max(1, int(len(all_files) * sample_rate))`.  For a nonnegative rate,
Python's `int()` truncation is the floor; for a negative rate both the
source and the model are clamped to 1 by the `max`. -/
def sampleSize (n : Nat) (rate : ℚ) : Nat :=
  max 1 (⌊(n : ℚ) * rate⌋.toNat)

/-- The files the verification loop visits: all of them at
`sample_rate ≥ 1.0`, otherwise `random.sample(all_files, min(sample_size,
len(all_files)))`, modelled as the first elements of the shuffled order. -/
def filesToCheck (env : VerifyEnv) (rate : ℚ) : List String :=
  if rate < 1 then
    env.perm.take (min (sampleSize env.all_files.length rate) env.all_files.length)
  else env.all_files

/-- `verify_backup`.  Three return paths: missing backup directory, the
generic `except` fallback (walk failure; counters still 0 because the walk
precedes the loop), and normal verification. -/
def verify_backup (env : VerifyEnv) (backup_path : String) (rate : ℚ) :
    VerificationResult :=
  if !env.dir_exists then
    { backup_path := backup_path, is_valid := false, files_checked := 0,
      files_failed := 0, checksum_matches := false,
      errors := ["Backup directory does not exist: " ++ backup_path] }
  else if !env.walk_ok then
    { backup_path := backup_path, is_valid := false, files_checked := 0,
      files_failed := 0, checksum_matches := false,
      errors := ["Verification failed: " ++ env.walk_err] }
  else
    let chosen := filesToCheck env rate
    let failedFiles := chosen.filter (fun f => !env.file_ok f)
    let ckm := verify_backup_checksum env.meta env.t_meta env.tree backup_path
    { backup_path := backup_path
      is_valid := (failedFiles.length == 0) && ckm
      files_checked := chosen.length
      files_failed := failedFiles.length
      checksum_matches := ckm
      errors := failedFiles.map (fun f => "File check failed: " ++ f) }

/-- One callback registered on the `rollback_actions` list of
`backup_transaction`: invoking it performs its compensating effect
(observed as `id`) and may itself raise (`fails`). -/
structure RollbackAction where
  id : Nat
  fails : Bool

/-- Invoking one rollback callback: its effect, and the error it raises if
it fails. -/
def runAction (a : RollbackAction) : Nat × Option String :=
  (a.id, if a.fails then some "rollback error" else none)

/-- The `for action in reversed(rollback_actions)` loop body applied to an
already-reversed list: each callback is invoked inside its own
`try`/`except`, whose error is only logged, so the loop always proceeds to
the next callback. -/
def runRollbackActions : List RollbackAction → List Nat
  | [] => []
  | a :: rest =>
    let r := runAction a
    r.1 :: runRollbackActions rest

/-- `backup_transaction`: the scope body registered `registered` (in
registration order) and then either returned normally (`bodyErr = none`) or
raised (`bodyErr = some e`).  Result: the ids of the rollback callbacks that
ran, in execution order, and the exception propagated to the caller
(`raise` re-raises the original exception after the rollback loop). -/
def backup_transaction (registered : List RollbackAction)
    (bodyErr : Option String) : List Nat × Option String :=
  match bodyErr with
  | none => ([], none)
  | some e => (runRollbackActions registered.reverse, some e)

/-- The enhanced result fields the claims are about (`success`, `message`,
`errors`; timing, byte counts and compression ratio are not modelled). -/
structure EnhancedBackupResult where
  success : Bool
  message : String
  errors : List String

/-- The `for attempt in range(1, max_attempts + 1)` loop of
`_create_backup_with_retry`, entered at `attempt`.  `attemptOk i` is true
when the backup job created on attempt `i` reaches status "completed"
(false covers a failed job, a `_wait_for_backup_completion` timeout, or any
other exception in the loop body).  Returns how many `create_backup` calls
the loop still makes and `none` on success / `some e` when the last attempt
raised (the per-attempt `except` re-raises once `attempt = max_attempts`;
an empty range falls through to the final `raise`). -/
def retryGo (attemptOk : Nat → Bool) (attempt maxAttempts : Nat) :
    Nat × Option String :=
  if attempt > maxAttempts then (0, some "Backup retry logic exhausted")
  else if attemptOk attempt then (1, none)
  else if attempt < maxAttempts then
    let r := retryGo attemptOk (attempt + 1) maxAttempts
    (r.1 + 1, r.2)
  else (1, some "All backup attempts failed")
termination_by maxAttempts + 1 - attempt

/-- `_create_backup_with_retry` (loop started at attempt 1). -/
def create_backup_with_retry (attemptOk : Nat → Bool) (maxAttempts : Nat) :
    Nat × Option String :=
  retryGo attemptOk 1 maxAttempts

/-- `create_model_backup`: resolve the model path (an unknown model or a
missing directory raises, is caught, and becomes a failed result without
creating any job); otherwise run the retry loop and convert its outcome
into an `EnhancedBackupResult`, never raising to the caller.  Returns the
result together with the number of `BackupJob` records created. -/
def create_model_backup (modelPathOk : Bool) (attemptOk : Nat → Bool)
    (maxAttempts : Nat) : EnhancedBackupResult × Nat :=
  if !modelPathOk then
    ({ success := false, message := "Backup failed: model path not found",
       errors := ["Model path not found"] }, 0)
  else
    match create_backup_with_retry attemptOk maxAttempts with
    | (n, none) =>
      ({ success := true, message := "Backup completed", errors := [] }, n)
    | (n, some e) =>
      ({ success := false, message := "Backup failed: " ++ e, errors := [e] }, n)

/-- The job-status transition relation asserted by the spec:
`pending → running → (completed | failed)`, nothing else. -/
def StatusStep (a b : String) : Prop :=
  (a = "pending" ∧ b = "running")
  ∨ (a = "running" ∧ (b = "completed" ∨ b = "failed"))

/-- Every rollback callback on the list is invoked (its effect happens),
whether or not earlier callbacks failed. -/
theorem runRollbackActions_ids (l : List RollbackAction) :
    runRollbackActions l = l.map RollbackAction.id := by
  induction l with
  | nil => rfl
  | cons a rest ih => simp [runRollbackActions, runAction, ih]

/-- C1: every `VerificationResult` returned by `verify_backup` — on the
missing-directory path, the internal-exception fallback, and the normal
path — satisfies: `is_valid` is true iff `files_failed = 0` and
`checksum_matches` is true. -/
theorem C1_is_valid_iff (env : VerifyEnv) (backup_path : String) (rate : ℚ) :
    (verify_backup env backup_path rate).is_valid = true ↔
      ((verify_backup env backup_path rate).files_failed = 0
        ∧ (verify_backup env backup_path rate).checksum_matches = true) := by
  by_cases h1 : env.dir_exists
  · by_cases h2 : env.walk_ok
    · simp [verify_backup, h1, h2]
    · simp [verify_backup, h1, h2]
  · simp [verify_backup, h1]

/-- C2: a job is created with status "pending"; the worker then sets it to
"running" and finally to exactly one of "completed"/"failed"; the write
sequence is a path of the `pending → running → {completed, failed}`
transition relation; and that relation has no transition out of a terminal
status. -/
theorem C2_status_trace (settings : StorageSettings) (src btype : String)
    (n1 n2 : Datetime) (rand : Nat) (env : ExecEnv) :
    (create_backup settings src btype n1 n2 rand).status = "pending"
    ∧ (jobStatusTrace env (create_backup settings src btype n1 n2 rand)
          = ["pending", "running", "completed"]
      ∨ jobStatusTrace env (create_backup settings src btype n1 n2 rand)
          = ["pending", "running", "failed"])
    ∧ List.Chain' StatusStep
        (jobStatusTrace env (create_backup settings src btype n1 n2 rand))
    ∧ (∀ s, ¬ StatusStep "completed" s)
    ∧ (∀ s, ¬ StatusStep "failed" s) := by
  refine ⟨rfl, ?_, ?_, ?_, ?_⟩
  · by_cases h : env.source_exists && env.backup_ok
    · exact Or.inl (by simp [jobStatusTrace, create_backup, startJob, finishJob, h])
    · exact Or.inr (by simp [jobStatusTrace, create_backup, startJob, finishJob, h])
  · by_cases h : env.source_exists && env.backup_ok
    · have ht : jobStatusTrace env (create_backup settings src btype n1 n2 rand)
          = ["pending", "running", "completed"] := by
        simp [jobStatusTrace, create_backup, startJob, finishJob, h]
      rw [ht]
      exact List.Chain'.cons (Or.inl ⟨rfl, rfl⟩)
        (List.Chain'.cons (Or.inr ⟨rfl, Or.inl rfl⟩) (List.chain'_singleton _))
    · have ht : jobStatusTrace env (create_backup settings src btype n1 n2 rand)
          = ["pending", "running", "failed"] := by
        simp [jobStatusTrace, create_backup, startJob, finishJob, h]
      rw [ht]
      exact List.Chain'.cons (Or.inl ⟨rfl, rfl⟩)
        (List.Chain'.cons (Or.inr ⟨rfl, Or.inr rfl⟩) (List.chain'_singleton _))
  · rintro s (⟨h, -⟩ | ⟨h, -⟩) <;> exact absurd h (by decide)
  · rintro s (⟨h, -⟩ | ⟨h, -⟩) <;> exact absurd h (by decide)

/-- C5: with rollback actions registered in order A then B and an exception
raised after both registrations, B runs before A; on an exception every
registered action runs (a failing action does not stop the rest) and the
original exception propagates; on normal exit no rollback action runs. -/
theorem C5_rollback (A B : RollbackAction) (l : List RollbackAction)
    (e : String) :
    backup_transaction [A, B] (some e) = ([B.id, A.id], some e)
    ∧ backup_transaction l none = ([], none)
    ∧ (backup_transaction l (some e)).1 = (l.reverse).map RollbackAction.id
    ∧ (backup_transaction l (some e)).2 = some e := by
  refine ⟨?_, rfl, ?_, rfl⟩
  · simp [backup_transaction, runRollbackActions, runAction]
  · simp [backup_transaction, runRollbackActions_ids]

/-- Concrete settings with the repository's default paths
(`backup_root = /mnt/citadel-backup`, `backup_models =
/mnt/citadel-backup/models`). -/
def sampleSettings : StorageSettings :=
  { paths := { backup_root := "/mnt/citadel-backup",
               backup_models := "/mnt/citadel-backup/models" },
    backup := { compress_backups := true, verification_sample_rate := 1,
                max_retry_attempts := 3, retry_delay_seconds := 30,
                retention_days := 30 } }

/-- A concrete clock reading. -/
def sampleTime : Datetime :=
  { iso := "2025-01-01T00:00:00", stamp := "20250101_000000" }

/-- A later concrete clock reading. -/
def sampleTime2 : Datetime :=
  { iso := "2025-01-01T00:05:00", stamp := "20250101_000500" }

/-- A concrete job as returned by `create_backup`. -/
def sampleJob : BackupJob :=
  create_backup sampleSettings "/mnt/citadel-models/active/phi-3" "full"
    sampleTime sampleTime 1234

/-- An execution environment in which the source path is missing, so the
job fails. -/
def failEnv : ExecEnv :=
  { source_exists := false, backup_ok := false,
    failure_msg := "Source path does not exist: /mnt/citadel-models/active/phi-3",
    checksum := "", write_ok := true,
    t_start := sampleTime, t_end := sampleTime2, t_meta := sampleTime2 }

/-- An execution environment in which archiving succeeds and the metadata
write succeeds. -/
def okEnv : ExecEnv :=
  { source_exists := true, backup_ok := true, failure_msg := "",
    checksum := "deadbeef", write_ok := true,
    t_start := sampleTime, t_end := sampleTime2, t_meta := sampleTime2 }

/-- An execution environment in which archiving succeeds but writing the
metadata file fails. -/
def okEnvNoWrite : ExecEnv :=
  { okEnv with write_ok := false }

/-- C6 fails as stated: with the repository's default settings the
destination is rooted at `paths.backup_models`
(`/mnt/citadel-backup/models`), not at `paths.backup_root`
(`/mnt/citadel-backup`), so the claimed
`<backup_root>/<basename(source)>_<type>_<timestamp>` shape is wrong. -/
theorem C6_counterexample :
    (create_backup sampleSettings "/mnt/citadel-models/active/phi-3" "full"
        sampleTime sampleTime 1234).destination_path
      ≠ sampleSettings.paths.backup_root ++ "/"
          ++ (basename "/mnt/citadel-models/active/phi-3" ++ "_" ++ "full"
              ++ "_" ++ sampleTime.stamp)
    ∧ (create_backup sampleSettings "/mnt/citadel-models/active/phi-3" "full"
        sampleTime sampleTime 1234).destination_path
      = "/mnt/citadel-backup/models/phi-3_full_20250101_000000" := by
  constructor
  · decide
  · decide

/-- C6 (amended): `destination_path` equals
`<backup_models>/<basename(source)>_<type>_<timestamp>` — rooted at the
model-backup directory of the settings, not at `backup_root` — and is
computed deterministically from those inputs alone (the caller never
supplies it; the job-id clock reading and random suffix do not influence
it). -/
theorem C6_destination_amended (settings : StorageSettings)
    (src btype : String) (n1 n2 n1' n2' : Datetime) (r r' : Nat)
    (hstamp : n2.stamp = n2'.stamp) :
    (create_backup settings src btype n1 n2 r).destination_path
      = settings.paths.backup_models ++ "/"
        ++ (basename src ++ "_" ++ btype ++ "_" ++ n2.stamp)
    ∧ (create_backup settings src btype n1 n2 r).destination_path
      = (create_backup settings src btype n1' n2' r').destination_path := by
  constructor
  · rfl
  · simp [create_backup, hstamp]

/-- Witness for C6 (amended) at concrete inputs. -/
theorem C6_destination_amended_witness :
    (create_backup sampleSettings "/x/y" "full" sampleTime sampleTime
        5).destination_path
      = sampleSettings.paths.backup_models ++ "/"
        ++ (basename "/x/y" ++ "_" ++ "full" ++ "_" ++ sampleTime.stamp)
    ∧ (create_backup sampleSettings "/x/y" "full" sampleTime sampleTime
        5).destination_path
      = (create_backup sampleSettings "/x/y" "full" sampleTime2 sampleTime
          9).destination_path :=
  C6_destination_amended sampleSettings "/x/y" "full" sampleTime sampleTime
    sampleTime2 sampleTime 5 9 rfl

/-- C4 fails as stated: a job that reaches the terminal state "failed" is
never appended to the metadata store — `_execute_backup`'s `except` clause
does not call `_save_backup_metadata`.  Concretely, executing a backup of
a missing source leaves the store untouched (still no jobs) although the
job ended in a terminal state. -/
theorem C4_counterexample :
    (execute_backup failEnv sampleJob
        (.good { jobs := [], created := "2025-01-01T00:00:00" })).1.status
      = "failed"
    ∧ (execute_backup failEnv sampleJob
        (.good { jobs := [], created := "2025-01-01T00:00:00" })).2
      = .good { jobs := [], created := "2025-01-01T00:00:00" } := by
  constructor
  · rfl
  · rfl

/-- C4 (amended): only jobs that reach status "completed" are persisted.
When the job completes and the metadata write succeeds, the job's dict
form — with `start_time`/`end_time` serialized to their ISO-8601 strings —
is appended to the end of the store's `jobs` list, and existing entries
are neither removed nor rewritten; when the write fails the store is left
unchanged.  Failed jobs are never written (see the counterexample). -/
theorem C4_persist_amended (env : ExecEnv) (j : BackupJob) (doc : MetadataDoc)
    (hs : env.source_exists = true) (hb : env.backup_ok = true) :
    (env.write_ok = true →
      (execute_backup env j (.good doc)).2
        = .good { jobs := doc.jobs ++ [jobDict (execute_backup env j (.good doc)).1],
                  created := doc.created }
      ∧ (execute_backup env j (.good doc)).1.status = "completed"
      ∧ (jobDict (execute_backup env j (.good doc)).1).start_time
          = some env.t_start.iso
      ∧ (jobDict (execute_backup env j (.good doc)).1).end_time
          = some env.t_end.iso)
    ∧ (env.write_ok = false → (execute_backup env j (.good doc)).2 = .good doc) := by
  constructor
  · intro hw
    refine ⟨?_, ?_, ?_, ?_⟩ <;>
      simp [execute_backup, startJob, finishJob, save_backup_metadata,
        load_backup_metadata, jobDict, hs, hb, hw]
  · intro hw
    simp [execute_backup, startJob, finishJob, save_backup_metadata,
      load_backup_metadata, hs, hb, hw]

/-- Witness for C4 (amended) at concrete inputs. -/
theorem C4_persist_amended_witness :
    (okEnv.write_ok = true →
      (execute_backup okEnv sampleJob
          (.good { jobs := [], created := "2025-01-01T00:00:00" })).2
        = .good { jobs := [] ++ [jobDict (execute_backup okEnv sampleJob
                    (.good { jobs := [], created := "2025-01-01T00:00:00" })).1],
                  created := "2025-01-01T00:00:00" }
      ∧ (execute_backup okEnv sampleJob
          (.good { jobs := [], created := "2025-01-01T00:00:00" })).1.status
          = "completed"
      ∧ (jobDict (execute_backup okEnv sampleJob
          (.good { jobs := [], created := "2025-01-01T00:00:00" })).1).start_time
          = some okEnv.t_start.iso
      ∧ (jobDict (execute_backup okEnv sampleJob
          (.good { jobs := [], created := "2025-01-01T00:00:00" })).1).end_time
          = some okEnv.t_end.iso)
    ∧ (okEnv.write_ok = false →
      (execute_backup okEnv sampleJob
          (.good { jobs := [], created := "2025-01-01T00:00:00" })).2
        = .good { jobs := [], created := "2025-01-01T00:00:00" }) :=
  C4_persist_amended okEnv sampleJob
    { jobs := [], created := "2025-01-01T00:00:00" } rfl rfl

/-- C10: metadata-store I/O failures are swallowed.  A failed metadata
write leaves the job "completed" and the store unchanged; a later
`verify_backup` whose lookup finds no matching entry reports
`checksum_matches = true`; a missing or unparseable metadata file loads as
the fresh default document. -/
theorem C10_metadata_errors (env : ExecEnv) (j : BackupJob)
    (doc : MetadataDoc) (now : Datetime) (venv : VerifyEnv) (bp : String)
    (rate : ℚ)
    (hs : env.source_exists = true) (hb : env.backup_ok = true)
    (hw : env.write_ok = false)
    (hvd : venv.dir_exists = true) (hvw : venv.walk_ok = true)
    (hvm : venv.meta = .good doc)
    (hnomatch : doc.jobs.filter
        (fun jd => basename jd.destination_path == basename bp) = []) :
    (execute_backup env j (.good doc)).1.status = "completed"
    ∧ (execute_backup env j (.good doc)).2 = .good doc
    ∧ (verify_backup venv bp rate).checksum_matches = true
    ∧ load_backup_metadata .missing now = { jobs := [], created := now.iso }
    ∧ load_backup_metadata .corrupt now = { jobs := [], created := now.iso } := by
  refine ⟨?_, ?_, ?_, rfl, rfl⟩
  · simp [execute_backup, startJob, finishJob, hs, hb]
  · simp [execute_backup, startJob, finishJob, save_backup_metadata,
      load_backup_metadata, hs, hb, hw]
  · simp [verify_backup, hvd, hvw, verify_backup_checksum,
      load_backup_metadata, hvm, hnomatch, checksumOfMatching]

/-- If attempts `a..k-1` fail and attempt `k` succeeds (`a ≤ k ≤ max`), the
retry loop entered at `a` makes exactly `k + 1 - a` further `create_backup`
calls and reports success. -/
theorem retryGo_success (ok : Nat → Bool) (maxA : Nat) :
    ∀ (n a k : Nat), k - a = n → a ≤ k → k ≤ maxA →
      (∀ i, a ≤ i → i < k → ok i = false) → ok k = true →
      retryGo ok a maxA = (k + 1 - a, none) := by
  intro n
  induction n with
  | zero =>
    intro a k hn h1 h2 h3 h4
    have hak : a = k := by omega
    subst hak
    rw [retryGo]
    have hng : ¬ a > maxA := by omega
    have hone : a + 1 - a = 1 := by omega
    simp [hng, h4, hone]
  | succ n ih =>
    intro a k hn h1 h2 h3 h4
    have hlt : a < k := by omega
    have hok : ok a = false := h3 a le_rfl hlt
    have hng : ¬ a > maxA := by omega
    have hlt2 : a < maxA := by omega
    have hrec : retryGo ok (a + 1) maxA = (k + 1 - (a + 1), none) :=
      ih (a + 1) k (by omega) (by omega) h2
        (fun i hi1 hi2 => h3 i (by omega) hi2) h4
    rw [retryGo]
    simp [hng, hok, hlt2, hrec]
    omega

/-- If every attempt from `a` through `max` fails (`a ≤ max`), the retry
loop entered at `a` makes `max + 1 - a` further `create_backup` calls and
raises the aggregate error. -/
theorem retryGo_fail (ok : Nat → Bool) (maxA : Nat) :
    ∀ (n a : Nat), maxA - a = n → a ≤ maxA →
      (∀ i, a ≤ i → i ≤ maxA → ok i = false) →
      retryGo ok a maxA = (maxA + 1 - a, some "All backup attempts failed") := by
  intro n
  induction n with
  | zero =>
    intro a hn h1 h2
    have ham : a = maxA := by omega
    have hok : ok a = false := h2 a le_rfl h1
    rw [retryGo]
    have hng : ¬ a > maxA := by omega
    have hnl : ¬ a < maxA := by omega
    have hone : maxA + 1 - a = 1 := by omega
    simp [hng, hok, hnl, hone]
  | succ n ih =>
    intro a hn h1
    intro h2
    have hlt : a < maxA := by omega
    have hok : ok a = false := h2 a le_rfl h1
    have hng : ¬ a > maxA := by omega
    have hrec : retryGo ok (a + 1) maxA
        = (maxA + 1 - (a + 1), some "All backup attempts failed") :=
      ih (a + 1) (by omega) (by omega)
        (fun i hi1 hi2 => h2 i (by omega) hi2)
    rw [retryGo]
    simp [hng, hok, hlt, hrec]
    omega

/-- C3: with the model path resolvable, if the first `k - 1` attempts fail
and attempt `k ≤ max_retry_attempts` succeeds, `create_model_backup`
returns `success = true` and exactly `k` backup jobs were created (one
fresh `create_backup` call per attempt); if every attempt up to the
maximum fails, it returns `success = false` with a non-empty error list
instead of raising. -/
theorem C3_retry (ok : Nat → Bool) (maxA k : Nat) :
    (1 ≤ k → k ≤ maxA → (∀ i, 1 ≤ i → i < k → ok i = false) → ok k = true →
      (create_model_backup true ok maxA).1.success = true
      ∧ (create_model_backup true ok maxA).2 = k)
    ∧ (1 ≤ maxA → (∀ i, 1 ≤ i → i ≤ maxA → ok i = false) →
      (create_model_backup true ok maxA).1.success = false
      ∧ (create_model_backup true ok maxA).1.errors ≠ []) := by
  constructor
  · intro h1 h2 h3 h4
    have hr : retryGo ok 1 maxA = (k + 1 - 1, none) :=
      retryGo_success ok maxA (k - 1) 1 k (by omega) h1 h2 h3 h4
    have hk : k + 1 - 1 = k := by omega
    rw [hk] at hr
    simp [create_model_backup, create_backup_with_retry, hr]
  · intro h1 h2
    have hr : retryGo ok 1 maxA
        = (maxA + 1 - 1, some "All backup attempts failed") :=
      retryGo_fail ok maxA (maxA - 1) 1 (by omega) h1 h2
    simp [create_model_backup, create_backup_with_retry, hr]

/-- Witness for C3 at concrete inputs: failure on attempt 1, success on
attempt 2 of 3; and failure on all 3 attempts. -/
theorem C3_retry_witness :
    ((create_model_backup true (fun i => i == 2) 3).1.success = true
      ∧ (create_model_backup true (fun i => i == 2) 3).2 = 2)
    ∧ ((create_model_backup true (fun _ => false) 3).1.success = false
      ∧ (create_model_backup true (fun _ => false) 3).1.errors ≠ []) := by
  constructor
  · exact (C3_retry (fun i => i == 2) 3 2).1 (by decide) (by decide)
      (fun i hi1 hi2 => by
        have : i = 1 := by omega
        subst this
        rfl)
      (by decide)
  · exact (C3_retry (fun _ => false) 3 0).2 (by decide) (fun i hi1 hi2 => rfl)

/-- Checksum stream of a single-file directory: the file's content bytes
followed by its relative path. -/
theorem dirChecksum_single (p c : String) :
    dirChecksum (.node [(p, c)] []) = String.mk (c.data ++ p.data) := by
  unfold dirChecksum
  rw [walkStream_node]
  simp [sortPairs, List.insertionSort, List.orderedInsert]

/-- C7 fails as stated: the two flat trees `{ab ↦ "", aba ↦ ""}` and
`{ba ↦ "", aba ↦ ""}` contain identical file contents and differ only by
renaming `ab` to `ba`, yet both feed the byte stream `ababa` to the hash
(`"" ++ "ab"` then `"" ++ "aba"`, versus `"" ++ "aba"` then `"" ++ "ba"`),
so `_calculate_directory_checksum` returns the same MD5 digest for both. -/
theorem C7_counterexample :
    dirChecksum (DirTree.node [("ab", ""), ("aba", "")] [])
      = dirChecksum (DirTree.node [("ba", ""), ("aba", "")] [])
    ∧ ([("ab", ""), ("aba", "")] : List (String × String)).map Prod.snd
      = ([("ba", ""), ("aba", "")] : List (String × String)).map Prod.snd
    ∧ ("ab" : String) ≠ "ba"
    ∧ ([("ab", ""), ("aba", "")] : List (String × String))
      ≠ [("ba", ""), ("aba", "")] := by
  refine ⟨?_, by decide, by decide, by decide⟩
  unfold dirChecksum
  rw [walkStream_node, walkStream_node]
  decide

/-- C7 (amended): the checksum is deterministic — it does not depend on the
enumeration order of any directory listing (idempotent recomputation over
an unchanged tree) — and renaming the file of a single-file tree always
changes the hash input; but for trees with several files a rename need not
change the checksum (see the counterexample), because content and path
bytes are concatenated without separators. -/
theorem C7_checksum_amended {fs₁ fs₂ : List (String × String)}
    {ds₁ ds₂ : List (String × DirTree)}
    (hf : fs₁.Perm fs₂) (hfnd : (fs₁.map Prod.fst).Nodup)
    (hd : ds₁.Perm ds₂) (hdnd : (ds₁.map Prod.fst).Nodup)
    (p₁ p₂ c : String) (hp : p₁ ≠ p₂) :
    dirChecksum (.node fs₁ ds₁) = dirChecksum (.node fs₂ ds₂)
    ∧ dirChecksum (.node [(p₁, c)] []) ≠ dirChecksum (.node [(p₂, c)] []) := by
  constructor
  · unfold dirChecksum
    rw [walkStream_listing_perm [] hf hfnd hd hdnd]
  · rw [dirChecksum_single, dirChecksum_single]
    intro he
    apply hp
    apply String.ext
    have hdata : c.data ++ p₁.data = c.data ++ p₂.data := congrArg String.data he
    exact List.append_cancel_left hdata

/-- Witness for C7 (amended) at concrete inputs. -/
theorem C7_checksum_amended_witness :
    dirChecksum (.node [("a", "x"), ("b", "y")] [])
      = dirChecksum (.node [("b", "y"), ("a", "x")] [])
    ∧ dirChecksum (.node [("a", "")] []) ≠ dirChecksum (.node [("b", "")] []) :=
  C7_checksum_amended (List.Perm.swap ("b", "y") ("a", "x") [])
    (by decide) (List.Perm.refl []) (by decide) "a" "b" "" (by decide)

/-- On the normal verification path, `checksum_matches` is exactly the
result of `_verify_backup_checksum`. -/
theorem verify_backup_checksum_matches (env : VerifyEnv) (bp : String)
    (rate : ℚ) (hd : env.dir_exists = true) (hw : env.walk_ok = true) :
    (verify_backup env bp rate).checksum_matches
      = verify_backup_checksum env.meta env.t_meta env.tree bp := by
  simp [verify_backup, hd, hw]

/-- C8: over an existing backup, checksum verification is optimistic — no
matching metadata entry, or a matching entry with a falsy checksum, counts
as passing — and with a matching entry recording a checksum it passes iff
the freshly recomputed tree checksum equals the recorded one. -/
theorem C8_checksum_lookup (env : VerifyEnv) (bp : String) (rate : ℚ)
    (hd : env.dir_exists = true) (hw : env.walk_ok = true) :
    ((load_backup_metadata env.meta env.t_meta).jobs.filter
        (fun jd => basename jd.destination_path == basename bp) = [] →
      verify_backup_checksum env.meta env.t_meta env.tree bp = true
      ∧ (verify_backup env bp rate).checksum_matches = true)
    ∧ (∀ jd rest, (load_backup_metadata env.meta env.t_meta).jobs.filter
          (fun x => basename x.destination_path == basename bp) = jd :: rest →
        falsyChecksum jd.checksum = true →
        verify_backup_checksum env.meta env.t_meta env.tree bp = true
        ∧ (verify_backup env bp rate).checksum_matches = true)
    ∧ (∀ jd rest s, (load_backup_metadata env.meta env.t_meta).jobs.filter
          (fun x => basename x.destination_path == basename bp) = jd :: rest →
        jd.checksum = some s → s ≠ "" →
        ((verify_backup env bp rate).checksum_matches = true
          ↔ dirChecksum env.tree = s)) := by
  have cm := verify_backup_checksum_matches env bp rate hd hw
  refine ⟨?_, ?_, ?_⟩
  · intro hfil
    have hv : verify_backup_checksum env.meta env.t_meta env.tree bp = true := by
      simp only [verify_backup_checksum]
      rw [hfil]
      rfl
    exact ⟨hv, by rw [cm, hv]⟩
  · intro jd rest hfil hfalsy
    have hv : verify_backup_checksum env.meta env.t_meta env.tree bp = true := by
      simp only [verify_backup_checksum]
      rw [hfil]
      simp only [checksumOfMatching]
      cases hc : jd.checksum with
      | none => rfl
      | some s =>
        rw [hc] at hfalsy
        simp only [falsyChecksum] at hfalsy
        simp [checksumOfRecord, hfalsy]
    exact ⟨hv, by rw [cm, hv]⟩
  · intro jd rest s hfil hc hs
    have hv : verify_backup_checksum env.meta env.t_meta env.tree bp
        = (dirChecksum env.tree == s) := by
      simp only [verify_backup_checksum]
      rw [hfil]
      simp only [checksumOfMatching]
      rw [hc]
      have hne : (s == "") = false := by
        simp [hs]
      simp [checksumOfRecord, hne]
    rw [cm, hv]
    simp

/-- A concrete verification environment: existing directory, clean walk,
three files, full shuffle, empty metadata store. -/
def sampleVerifyEnv : VerifyEnv :=
  { dir_exists := true, walk_ok := true, walk_err := "",
    all_files := ["/b/a.bin", "/b/c.bin", "/b/d.bin"],
    file_ok := fun _ => true,
    perm := ["/b/c.bin", "/b/a.bin", "/b/d.bin"],
    tree := .node [("config.json", "cfg")] [],
    meta := .good { jobs := [], created := "2025-01-01T00:00:00" },
    t_meta := sampleTime }

/-- Witness for C8 at concrete inputs. -/
theorem C8_checksum_lookup_witness :
    ((load_backup_metadata sampleVerifyEnv.meta sampleVerifyEnv.t_meta).jobs.filter
        (fun jd => basename jd.destination_path == basename "/b") = [] →
      verify_backup_checksum sampleVerifyEnv.meta sampleVerifyEnv.t_meta
          sampleVerifyEnv.tree "/b" = true
      ∧ (verify_backup sampleVerifyEnv "/b" 1).checksum_matches = true)
    ∧ (∀ jd rest,
        (load_backup_metadata sampleVerifyEnv.meta sampleVerifyEnv.t_meta).jobs.filter
          (fun x => basename x.destination_path == basename "/b") = jd :: rest →
        falsyChecksum jd.checksum = true →
        verify_backup_checksum sampleVerifyEnv.meta sampleVerifyEnv.t_meta
            sampleVerifyEnv.tree "/b" = true
        ∧ (verify_backup sampleVerifyEnv "/b" 1).checksum_matches = true)
    ∧ (∀ jd rest s,
        (load_backup_metadata sampleVerifyEnv.meta sampleVerifyEnv.t_meta).jobs.filter
          (fun x => basename x.destination_path == basename "/b") = jd :: rest →
        jd.checksum = some s → s ≠ "" →
        ((verify_backup sampleVerifyEnv "/b" 1).checksum_matches = true
          ↔ dirChecksum sampleVerifyEnv.tree = s)) :=
  C8_checksum_lookup sampleVerifyEnv "/b" 1 rfl rfl

/-- C9: over an existing backup tree with a clean walk, `sample_rate = 1.0`
checks every file; any `sample_rate ∈ [0, 1)` checks exactly
`min(max(1, floor(n * sample_rate)), n)` files; at least one file is
checked whenever the tree has files; and zero files are checked only for
an empty tree. -/
theorem C9_sample_count (env : VerifyEnv) (bp : String) (rate : ℚ)
    (hd : env.dir_exists = true) (hw : env.walk_ok = true)
    (hperm : env.perm.Perm env.all_files)
    (h0 : 0 ≤ rate) (h1 : rate ≤ 1) :
    (rate = 1 → (verify_backup env bp rate).files_checked = env.all_files.length)
    ∧ (rate < 1 → (verify_backup env bp rate).files_checked
        = min (max 1 (Nat.floor ((env.all_files.length : ℚ) * rate)))
            env.all_files.length)
    ∧ (1 ≤ env.all_files.length → 1 ≤ (verify_backup env bp rate).files_checked)
    ∧ ((verify_backup env bp rate).files_checked = 0
        → env.all_files.length = 0) := by
  have hfc : (verify_backup env bp rate).files_checked
      = (filesToCheck env rate).length := by
    simp [verify_backup, hd, hw]
  have hlen : env.perm.length = env.all_files.length := hperm.length_eq
  have hsz : sampleSize env.all_files.length rate
      = max 1 (Nat.floor ((env.all_files.length : ℚ) * rate)) := by
    simp [sampleSize, Int.floor_toNat]
  have key : rate < 1 → (verify_backup env bp rate).files_checked
      = min (max 1 (Nat.floor ((env.all_files.length : ℚ) * rate)))
          env.all_files.length := by
    intro hr
    rw [hfc]
    simp only [filesToCheck, if_pos hr]
    rw [List.length_take, hlen, hsz]
    omega
  have keyeq : rate = 1 → (verify_backup env bp rate).files_checked
      = env.all_files.length := by
    intro hr
    subst hr
    rw [hfc]
    simp [filesToCheck]
  refine ⟨keyeq, key, ?_, ?_⟩
  · intro hn
    rcases lt_or_le rate 1 with hr | hr
    · rw [key hr]
      omega
    · have heq : rate = 1 := le_antisymm h1 hr
      rw [keyeq heq]
      exact hn
  · intro hz
    rcases lt_or_le rate 1 with hr | hr
    · rw [key hr] at hz
      omega
    · have heq : rate = 1 := le_antisymm h1 hr
      rw [keyeq heq] at hz
      exact hz

/-- Witness for C9 at concrete inputs (three files, rate 1/2). -/
theorem C9_sample_count_witness :
    ((1 : ℚ) / 2 = 1 →
      (verify_backup sampleVerifyEnv "/b" (1 / 2)).files_checked
        = sampleVerifyEnv.all_files.length)
    ∧ ((1 : ℚ) / 2 < 1 →
      (verify_backup sampleVerifyEnv "/b" (1 / 2)).files_checked
        = min (max 1 (Nat.floor ((sampleVerifyEnv.all_files.length : ℚ) * (1 / 2))))
            sampleVerifyEnv.all_files.length)
    ∧ (1 ≤ sampleVerifyEnv.all_files.length
        → 1 ≤ (verify_backup sampleVerifyEnv "/b" (1 / 2)).files_checked)
    ∧ ((verify_backup sampleVerifyEnv "/b" (1 / 2)).files_checked = 0
        → sampleVerifyEnv.all_files.length = 0) :=
  C9_sample_count sampleVerifyEnv "/b" (1 / 2) rfl rfl
    (by decide) (by norm_num) (by norm_num)

/-- Witness for C10 at concrete inputs. -/
theorem C10_metadata_errors_witness :
    (execute_backup okEnvNoWrite sampleJob
        (.good { jobs := [], created := "2025-01-01T00:00:00" })).1.status
      = "completed"
    ∧ (execute_backup okEnvNoWrite sampleJob
        (.good { jobs := [], created := "2025-01-01T00:00:00" })).2
      = .good { jobs := [], created := "2025-01-01T00:00:00" }
    ∧ (verify_backup sampleVerifyEnv "/b" 1).checksum_matches = true
    ∧ load_backup_metadata .missing sampleTime
      = { jobs := [], created := sampleTime.iso }
    ∧ load_backup_metadata .corrupt sampleTime
      = { jobs := [], created := sampleTime.iso } :=
  C10_metadata_errors okEnvNoWrite sampleJob
    { jobs := [], created := "2025-01-01T00:00:00" } sampleTime
    sampleVerifyEnv "/b" 1 rfl rfl rfl rfl rfl rfl rfl
